import Mathlib

/-!
# The raw container-handler factory (`container/raw/factory.go`)

A shallow embedding of the `raw` package's factory: the acceptance policy
`rawFactory.CanHandleAndAccept`, handler construction
`rawFactory.NewContainerHandler`, and the bootstrap sequence `Register`.

Conventions of the embedding:

* a Go `string` is an immutable sequence of bytes, so it is a `List UInt8`;
  string literals of the source are written `str "..."` (their UTF-8 bytes);
* a Go `error` is observed through the text of its `Error()` method; the nil
  error is `none`;
* the process-wide flag `*dockerOnly` is an explicit Boolean argument;
* values of other packages that the factory only stores and passes on
  (`info.MachineInfoFactory`, `fs.FsInfo`, `*common.InotifyWatcher`,
  `map[container.MetricKind]struct{}`, `container.ContainerHandler`) are type
  parameters;
* functions of other packages that the factory calls are function parameters,
  and the state they act on is passed explicitly.
-/

namespace raw

/-! ## Go strings and errors -/

/-- A Go `string`: a sequence of bytes. -/
abbrev GoString := List UInt8

/-- The bytes of a string literal of the source (its UTF-8 encoding). -/
def str (s : String) : GoString := s.toUTF8.data.toList

/-- A Go `error` value, observed through the text `Error()` returns. -/
structure GoError where
  /-- Text returned by the `Error()` method. -/
  Error : GoString
deriving DecidableEq, Repr

/-- Go `strings.HasPrefix(s, prefix)`:
`len(s) >= len(prefix) && s[0:len(prefix)] == prefix`. -/
def HasPrefix (s pfx : GoString) : Bool :=
  decide (s.length ≥ pfx.length) && decide (s.take pfx.length = pfx)

/-! ## The factory -/

/-- Modelled from the spec: `libcontainer.CgroupSubsystems` is declared
outside this file; the spec describes it as an ordered mapping from controller
name to mount path. Only `len(Mounts)` is inspected by the factory. -/
structure CgroupSubsystems where
  /-- Pairs of controller name and mount path, in order. -/
  Mounts : List (GoString × GoString)
deriving DecidableEq, Repr

/-- Go `type rawFactory struct`, fields in declaration order. -/
structure rawFactory (MachineInfoFactory FsInfo InotifyWatcher IncludedMetrics : Type) where
  /-- Factory for machine information. -/
  machineInfoFactory : MachineInfoFactory
  /-- Information about the cgroup subsystems. -/
  cgroupSubsystems : CgroupSubsystems
  /-- Information about mounted filesystems. -/
  fsInfo : FsInfo
  /-- Watcher for inotify events. -/
  watcher : InotifyWatcher
  /-- List of metrics to be included. -/
  includedMetrics : IncludedMetrics
  /-- List of raw container cgroup path prefix whitelist. -/
  rawPrefixWhiteList : List GoString
deriving DecidableEq, Repr

variable {MachineInfoFactory FsInfo InotifyWatcher IncludedMetrics ContainerHandler : Type}

/-- Go `func (self *rawFactory) String() string`. -/
def rawFactory.String (_self : rawFactory MachineInfoFactory FsInfo InotifyWatcher IncludedMetrics) :
    GoString :=
  str "raw"

/-- The `for _, prefix := range self.rawPrefixWhiteList` loop of
`CanHandleAndAccept`, threading the local variable `accept`: the first entry
that is a prefix of `name` sets `accept = true` and breaks. -/
def rawFactory.CanHandleAndAccept.range (name : GoString) : List GoString → Bool → Bool
  | [], accept => accept
  | pfx :: rest, accept =>
    if HasPrefix name pfx then true
    else rawFactory.CanHandleAndAccept.range name rest accept

/-- Go `func (self *rawFactory) CanHandleAndAccept(name string) (bool, bool, error)`;
the result is the triple `(canHandle, accept, err)`. -/
def rawFactory.CanHandleAndAccept (dockerOnly : Bool)
    (self : rawFactory MachineInfoFactory FsInfo InotifyWatcher IncludedMetrics)
    (name : GoString) : Bool × Bool × Option GoError :=
  let accept := decide (name = str "/") || !dockerOnly
  let accept := rawFactory.CanHandleAndAccept.range name self.rawPrefixWhiteList accept
  (true, accept, none)

/-- Go `func (self *rawFactory) NewContainerHandler(name string, inHostNamespace bool)`;
`newRawContainerHandler` is the handler constructor of the package, defined in
another file. -/
def rawFactory.NewContainerHandler
    (newRawContainerHandler : GoString → CgroupSubsystems → MachineInfoFactory → FsInfo →
      InotifyWatcher → GoString → IncludedMetrics → ContainerHandler × Option GoError)
    (self : rawFactory MachineInfoFactory FsInfo InotifyWatcher IncludedMetrics)
    (name : GoString) (inHostNamespace : Bool) : ContainerHandler × Option GoError :=
  let rootFs := str "/"
  let rootFs := if !inHostNamespace then str "/rootfs" else rootFs
  newRawContainerHandler name self.cgroupSubsystems self.machineInfoFactory self.fsInfo
    self.watcher rootFs self.includedMetrics

/-! ## Bootstrap: `Register` -/

/-- Modelled from the spec: `watch.ContainerWatchSource` is declared in
`manager/watcher`; the spec describes it as an enumerated tag naming the
discovery strategy. `Raw` is the one tag this file names; `Other n` stands for
the tags of the sibling strategies. -/
inductive ContainerWatchSource
  | Raw
  | Other (tag : Nat)
deriving DecidableEq, Repr

/-- Calls `Register` makes into other packages for their effect on the
process, in the order they happen. -/
inductive Call
  /-- Call of `libcontainer.GetCgroupSubsystems(includedMetrics)`. -/
  | GetCgroupSubsystems
  /-- Call of `common.NewInotifyWatcher()`, which creates a watcher. -/
  | NewInotifyWatcher
  /-- Call of `klog.V(level).Infof(msg)`. -/
  | Infof (level : Nat) (msg : GoString)
deriving DecidableEq, Repr

/-- Process state `Register` acts on: the global registry of handler factories
and the trace of calls into the collaborating packages. `Factory` is the
interface type `container.ContainerHandlerFactory`, which the factories of all
strategies share. -/
structure World (Factory : Type) where
  /-- The registry: registered factories with their watch sources, oldest first. -/
  factories : List (Factory × List ContainerWatchSource)
  /-- Calls made so far, oldest first. -/
  calls : List Call
deriving DecidableEq, Repr

variable {Factory : Type}

/-- Append one call to the trace. -/
def World.call (w : World Factory) (c : Call) : World Factory :=
  { w with calls := w.calls ++ [c] }

/-- Modelled from the spec: `container.RegisterContainerHandlerFactory` is
defined in package `container`; the spec describes the registry as a
process-wide ordered list of strategies and registration as inserting the
factory tagged with its discovery sources. -/
def RegisterContainerHandlerFactory (factory : Factory)
    (watchTypes : List ContainerWatchSource) (w : World Factory) : World Factory :=
  { w with factories := w.factories ++ [(factory, watchTypes)] }

/-- Go `fmt.Errorf("failed to get cgroup subsystems: %v", err)`: the verb `%v`
prints the text of `err`. -/
def errGetCgroupSubsystems (err : GoError) : GoError :=
  ⟨str "failed to get cgroup subsystems: " ++ err.Error⟩

/-- Go `fmt.Errorf("failed to find supported cgroup mounts for the raw factory")`. -/
def errNoMounts : GoError :=
  ⟨str "failed to find supported cgroup mounts for the raw factory"⟩

/-- Go `func Register(machineInfoFactory, fsInfo, includedMetrics, rawPrefixWhiteList) error`.
`GetCgroupSubsystems` and `NewInotifyWatcher` are the results the two
collaborators give (a value and an error, as in Go); `asFactory` is the
conversion of a `*rawFactory` to the interface type of the registry, done by Go
at the call of `RegisterContainerHandlerFactory`; the returned pair is the
error of `Register` and the process state after it. -/
def Register
    (GetCgroupSubsystems : IncludedMetrics → CgroupSubsystems × Option GoError)
    (NewInotifyWatcher : InotifyWatcher × Option GoError)
    (asFactory : rawFactory MachineInfoFactory FsInfo InotifyWatcher IncludedMetrics → Factory)
    (machineInfoFactory : MachineInfoFactory) (fsInfo : FsInfo)
    (includedMetrics : IncludedMetrics) (rawPrefixWhiteList : List GoString)
    (w : World Factory) : Option GoError × World Factory :=
  let w := w.call Call.GetCgroupSubsystems
  match GetCgroupSubsystems includedMetrics with
  | (_, some err) => (some (errGetCgroupSubsystems err), w)
  | (cgroupSubsystems, none) =>
    if cgroupSubsystems.Mounts.length = 0 then (some errNoMounts, w)
    else
      let w := w.call Call.NewInotifyWatcher
      match NewInotifyWatcher with
      | (_, some err) => (some err, w)
      | (watcher, none) =>
        let w := w.call (Call.Infof 1 (str "Registering Raw factory"))
        let factory : rawFactory MachineInfoFactory FsInfo InotifyWatcher IncludedMetrics :=
          { machineInfoFactory := machineInfoFactory
            fsInfo := fsInfo
            cgroupSubsystems := cgroupSubsystems
            watcher := watcher
            includedMetrics := includedMetrics
            rawPrefixWhiteList := rawPrefixWhiteList }
        let w := RegisterContainerHandlerFactory (asFactory factory) [ContainerWatchSource.Raw] w
        (none, w)

/-! ## Facts about `strings.HasPrefix` and the whitelist loop -/

theorem hasPrefix_iff (s pfx : GoString) : HasPrefix s pfx = true ↔ ∃ t, s = pfx ++ t := by
  unfold HasPrefix
  simp only [Bool.and_eq_true, decide_eq_true_eq]
  constructor
  · rintro ⟨-, h⟩
    exact ⟨s.drop pfx.length, by conv_lhs => rw [← List.take_append_drop pfx.length s, h]⟩
  · rintro ⟨t, rfl⟩
    simp

theorem range_eq_true_iff (name : GoString) (wl : List GoString) (accept : Bool) :
    rawFactory.CanHandleAndAccept.range name wl accept = true ↔
      accept = true ∨ ∃ p ∈ wl, HasPrefix name p = true := by
  induction wl with
  | nil => simp [rawFactory.CanHandleAndAccept.range]
  | cons p rest ih =>
    unfold rawFactory.CanHandleAndAccept.range
    by_cases hp : HasPrefix name p = true
    · simp [hp]
    · simp [hp, ih]

theorem accept_iff (dockerOnly : Bool)
    (self : rawFactory MachineInfoFactory FsInfo InotifyWatcher IncludedMetrics)
    (name : GoString) :
    (self.CanHandleAndAccept dockerOnly name).2.1 = true ↔
      (name = str "/" ∨ dockerOnly = false ∨
        ∃ p ∈ self.rawPrefixWhiteList, HasPrefix name p = true) := by
  simp [rawFactory.CanHandleAndAccept, range_eq_true_iff, or_assoc]

theorem str_root : str "/" = [47] := by decide

theorem str_empty : str "" = [] := by decide

theorem hasPrefix_nil_right (s : GoString) : HasPrefix s [] = true := by
  simp [HasPrefix]

theorem hasPrefix_nil_left (pfx : GoString) (h : pfx ≠ []) : HasPrefix [] pfx = false := by
  cases pfx with
  | nil => exact absurd rfl h
  | cons b t => simp [HasPrefix]

/-- The accept result written as one Boolean expression. -/
theorem accept_eq (dockerOnly : Bool)
    (self : rawFactory MachineInfoFactory FsInfo InotifyWatcher IncludedMetrics)
    (name : GoString) :
    (self.CanHandleAndAccept dockerOnly name).2.1 =
      (decide (name = str "/") || !dockerOnly ||
        self.rawPrefixWhiteList.any (fun p => HasPrefix name p)) := by
  rw [Bool.eq_iff_iff, accept_iff]
  simp [or_assoc]

/-! ## Scenarios of the specification, evaluated on the code -/

/-- A factory over trivial collaborator types, with the given whitelist. -/
def exampleFactory (whitelist : List GoString) : rawFactory Unit Unit Unit Unit :=
  { machineInfoFactory := ()
    cgroupSubsystems := ⟨[(str "cpu", str "/sys/fs/cgroup/cpu")]⟩
    fsInfo := ()
    watcher := ()
    includedMetrics := ()
    rawPrefixWhiteList := whitelist }

theorem scenario_A :
    ((exampleFactory []).CanHandleAndAccept false (str "/sys/fs/cgroup/custom")).2.1 = true := by
  decide

theorem scenario_B :
    ((exampleFactory [str "/docker/", str "/kubepods/"]).CanHandleAndAccept true
      (str "/kubepods/burstable/pod1")).2.1 = true := by
  decide

theorem scenario_C :
    ((exampleFactory [str "/docker/"]).CanHandleAndAccept true
      (str "/system.slice/sshd.service")).2.1 = false := by
  decide

/-! ## The acceptance policy -/

/-- C1: the accept result of `CanHandleAndAccept` is true exactly when the
name is "/", or the docker_only flag is unset, or some whitelist entry is a
byte-wise prefix of the name. -/
theorem canHandleAndAccept_accept_iff (dockerOnly : Bool)
    (self : rawFactory MachineInfoFactory FsInfo InotifyWatcher IncludedMetrics)
    (name : GoString) :
    (self.CanHandleAndAccept dockerOnly name).2.1 = true ↔
      (name = str "/" ∨ dockerOnly = false ∨
        ∃ p ∈ self.rawPrefixWhiteList, ∃ t, name = p ++ t) := by
  rw [accept_iff]
  simp only [hasPrefix_iff]

/-- C2: the root name "/" is accepted whatever the docker_only flag and the
whitelist are. -/
theorem canHandleAndAccept_root (dockerOnly : Bool)
    (self : rawFactory MachineInfoFactory FsInfo InotifyWatcher IncludedMetrics) :
    (self.CanHandleAndAccept dockerOnly (str "/")).2.1 = true := by
  rw [accept_iff]
  exact Or.inl rfl

/-- C3: `CanHandleAndAccept` always answers canHandle = true with a nil
error. -/
theorem canHandleAndAccept_canHandle (dockerOnly : Bool)
    (self : rawFactory MachineInfoFactory FsInfo InotifyWatcher IncludedMetrics)
    (name : GoString) :
    (self.CanHandleAndAccept dockerOnly name).1 = true ∧
      (self.CanHandleAndAccept dockerOnly name).2.2 = none :=
  ⟨rfl, rfl⟩

/-- C4: the comment on `CanHandleAndAccept` says that with docker_only set to
false non-docker containers are ignored; the code does not do that. With
docker_only = false the name "/system.slice/sshd.service", which is not "/"
and has no prefix in the whitelist ["/docker/"], gets the result
(true, true, nil): it is accepted. -/
theorem canHandleAndAccept_dockerOnly_false_accepts :
    decide (str "/system.slice/sshd.service" = str "/") = false ∧
      [str "/docker/"].any (fun p => HasPrefix (str "/system.slice/sshd.service") p) = false ∧
      (exampleFactory [str "/docker/"]).CanHandleAndAccept false
        (str "/system.slice/sshd.service") = (true, true, none) := by
  decide

/-- What line 68 computes for a name that is not "/" and has no prefix in the
whitelist: the accept result is the negation of the docker_only flag. -/
theorem canHandleAndAccept_dockerOnly (dockerOnly : Bool)
    (self : rawFactory MachineInfoFactory FsInfo InotifyWatcher IncludedMetrics)
    (name : GoString) (hroot : name ≠ str "/")
    (hwl : ∀ p ∈ self.rawPrefixWhiteList, ∀ t, name ≠ p ++ t) :
    (self.CanHandleAndAccept dockerOnly name).2.1 = !dockerOnly := by
  have hany : self.rawPrefixWhiteList.any (fun p => HasPrefix name p) = false := by
    rw [Bool.eq_false_iff]
    intro h
    obtain ⟨p, hp, hpre⟩ := List.any_eq_true.mp h
    obtain ⟨t, ht⟩ := (hasPrefix_iff name p).mp hpre
    exact hwl p hp t ht
  rw [accept_eq, hany]
  simp [hroot]

/-- The same name and whitelist with the flag set: the name is rejected. -/
theorem canHandleAndAccept_dockerOnly_witness :
    ((exampleFactory [str "/docker/"]).CanHandleAndAccept true
      (str "/system.slice/sshd.service")).2.1 = false :=
  canHandleAndAccept_dockerOnly true (exampleFactory [str "/docker/"])
    (str "/system.slice/sshd.service") (by decide)
    (by
      intro p hp t ht
      have hpre : HasPrefix (str "/system.slice/sshd.service") p = true :=
        (hasPrefix_iff _ p).mpr ⟨t, ht⟩
      have hp2 : p = str "/docker/" := by simpa [exampleFactory] using hp
      rw [hp2] at hpre
      exact absurd hpre (by decide))

/-- C5: two factories whose whitelists hold the same set of prefixes give
the same (canHandle, accept, error) triple for every name and flag value. -/
theorem canHandleAndAccept_whitelist_as_set (dockerOnly : Bool)
    (self other : rawFactory MachineInfoFactory FsInfo InotifyWatcher IncludedMetrics)
    (name : GoString)
    (hset : ∀ p, p ∈ self.rawPrefixWhiteList ↔ p ∈ other.rawPrefixWhiteList) :
    self.CanHandleAndAccept dockerOnly name = other.CanHandleAndAccept dockerOnly name := by
  have hacc : (self.CanHandleAndAccept dockerOnly name).2.1 =
      (other.CanHandleAndAccept dockerOnly name).2.1 := by
    rw [Bool.eq_iff_iff, accept_iff, accept_iff]
    simp only [hset]
  have hshape : ∀ f : rawFactory MachineInfoFactory FsInfo InotifyWatcher IncludedMetrics,
      f.CanHandleAndAccept dockerOnly name =
        (true, (f.CanHandleAndAccept dockerOnly name).2.1, none) := fun _ => rfl
  rw [hshape self, hshape other, hacc]

/-- Witness for C5: a whitelist against a reordering of it with a duplicated
entry. -/
theorem canHandleAndAccept_whitelist_as_set_witness :
    (exampleFactory [str "/docker/", str "/kubepods/"]).CanHandleAndAccept true
        (str "/kubepods/burstable/pod1") =
      (exampleFactory [str "/kubepods/", str "/docker/", str "/docker/"]).CanHandleAndAccept true
        (str "/kubepods/burstable/pod1") :=
  canHandleAndAccept_whitelist_as_set true _ _ _ (by
    intro p
    simp only [exampleFactory, List.mem_cons, List.mem_singleton, List.not_mem_nil]
    tauto)

/-- C6: the empty name is not the root: with the flag set and a whitelist of
non-empty entries it is rejected, and with the flag unset it is accepted. -/
theorem canHandleAndAccept_empty_name
    (self : rawFactory MachineInfoFactory FsInfo InotifyWatcher IncludedMetrics)
    (hne : ∀ p ∈ self.rawPrefixWhiteList, p ≠ str "") :
    (self.CanHandleAndAccept true (str "")).2.1 = false ∧
      (self.CanHandleAndAccept false (str "")).2.1 = true := by
  constructor
  · rw [Bool.eq_false_iff]
    intro h
    rcases (accept_iff true self (str "")).mp h with h | h | ⟨p, hp, hpre⟩
    · exact absurd h (by decide)
    · exact absurd h (by decide)
    · rw [str_empty, hasPrefix_nil_left p (by simpa [str_empty] using hne p hp)] at hpre
      exact absurd hpre (by decide)
  · exact (accept_iff false self (str "")).mpr (Or.inr (Or.inl rfl))

/-- Witness for C6: the whitelist ["/docker/", "/kubepods/"]. -/
theorem canHandleAndAccept_empty_name_witness :
    ((exampleFactory [str "/docker/", str "/kubepods/"]).CanHandleAndAccept true
        (str "")).2.1 = false ∧
      ((exampleFactory [str "/docker/", str "/kubepods/"]).CanHandleAndAccept false
        (str "")).2.1 = true :=
  canHandleAndAccept_empty_name (exampleFactory [str "/docker/", str "/kubepods/"])
    (by decide)

/-- C10: a whitelist that contains the empty string accepts every name,
also with the docker_only flag set. -/
theorem canHandleAndAccept_empty_whitelist_entry (dockerOnly : Bool)
    (self : rawFactory MachineInfoFactory FsInfo InotifyWatcher IncludedMetrics)
    (name : GoString) (hmem : str "" ∈ self.rawPrefixWhiteList) :
    (self.CanHandleAndAccept dockerOnly name).2.1 = true := by
  rw [accept_iff]
  refine Or.inr (Or.inr ⟨str "", hmem, ?_⟩)
  rw [str_empty]
  exact hasPrefix_nil_right name

/-- Witness for C10: the whitelist ["/docker/", ""] with the flag set accepts
"/system.slice/sshd.service". -/
theorem canHandleAndAccept_empty_whitelist_entry_witness :
    ((exampleFactory [str "/docker/", str ""]).CanHandleAndAccept true
      (str "/system.slice/sshd.service")).2.1 = true :=
  canHandleAndAccept_empty_whitelist_entry true (exampleFactory [str "/docker/", str ""])
    (str "/system.slice/sshd.service") (by decide)

/-! ## Handler construction -/

/-- C7: `NewContainerHandler` returns exactly what the handler constructor
returns for the same name, the fields of the factory, and the root path "/"
in the host namespace and "/rootfs" outside it; in particular the error of the
constructor is returned as it is. -/
theorem newContainerHandler_delegates
    (newRawContainerHandler : GoString → CgroupSubsystems → MachineInfoFactory → FsInfo →
      InotifyWatcher → GoString → IncludedMetrics → ContainerHandler × Option GoError)
    (self : rawFactory MachineInfoFactory FsInfo InotifyWatcher IncludedMetrics)
    (name : GoString) (inHostNamespace : Bool) :
    self.NewContainerHandler newRawContainerHandler name inHostNamespace =
        newRawContainerHandler name self.cgroupSubsystems self.machineInfoFactory self.fsInfo
          self.watcher (if inHostNamespace = true then str "/" else str "/rootfs")
          self.includedMetrics ∧
      (self.NewContainerHandler newRawContainerHandler name inHostNamespace).2 =
        (newRawContainerHandler name self.cgroupSubsystems self.machineInfoFactory self.fsInfo
          self.watcher (if inHostNamespace = true then str "/" else str "/rootfs")
          self.includedMetrics).2 := by
  cases inHostNamespace <;> exact ⟨rfl, rfl⟩

/-! ## Bootstrap -/

section Bootstrap

variable (GetCgroupSubsystems : IncludedMetrics → CgroupSubsystems × Option GoError)
  (NewInotifyWatcher : InotifyWatcher × Option GoError)
  (asFactory : rawFactory MachineInfoFactory FsInfo InotifyWatcher IncludedMetrics → Factory)
  (machineInfoFactory : MachineInfoFactory) (fsInfo : FsInfo)
  (includedMetrics : IncludedMetrics) (rawPrefixWhiteList : List GoString)
  (w : World Factory)

/-- Step 1 fails: the discovery error is wrapped and nothing else happens. -/
theorem register_discovery_error (cause : GoError)
    (hdisc : (GetCgroupSubsystems includedMetrics).2 = some cause) :
    Register GetCgroupSubsystems NewInotifyWatcher asFactory machineInfoFactory fsInfo includedMetrics
        rawPrefixWhiteList w =
      (some (errGetCgroupSubsystems cause), w.call Call.GetCgroupSubsystems) := by
  rcases hG : GetCgroupSubsystems includedMetrics with ⟨cg, err⟩
  rw [hG] at hdisc
  cases hdisc
  simp [Register, hG]

/-- Step 2 fails: discovery succeeded with no mounts. -/
theorem register_no_mounts
    (hdisc : (GetCgroupSubsystems includedMetrics).2 = none)
    (hmounts : (GetCgroupSubsystems includedMetrics).1.Mounts = []) :
    Register GetCgroupSubsystems NewInotifyWatcher asFactory machineInfoFactory fsInfo includedMetrics
        rawPrefixWhiteList w =
      (some errNoMounts, w.call Call.GetCgroupSubsystems) := by
  rcases hG : GetCgroupSubsystems includedMetrics with ⟨cg, err⟩
  rw [hG] at hdisc hmounts
  cases hdisc
  simp only at hmounts
  simp [Register, hG, hmounts]

/-- Step 3 fails: the watcher error is returned as it is. -/
theorem register_watcher_error (cause : GoError)
    (hdisc : (GetCgroupSubsystems includedMetrics).2 = none)
    (hmounts : (GetCgroupSubsystems includedMetrics).1.Mounts ≠ [])
    (hwatch : NewInotifyWatcher.2 = some cause) :
    Register GetCgroupSubsystems NewInotifyWatcher asFactory machineInfoFactory fsInfo includedMetrics
        rawPrefixWhiteList w =
      (some cause, (w.call Call.GetCgroupSubsystems).call Call.NewInotifyWatcher) := by
  rcases hG : GetCgroupSubsystems includedMetrics with ⟨cg, err⟩
  rcases NewInotifyWatcher with ⟨wt, werr⟩
  rw [hG] at hdisc hmounts
  cases hdisc
  cases hwatch
  simp only at hmounts
  simp [Register, hG, hmounts]

/-- Steps 1 to 3 succeed: the factory is built and registered. -/
theorem register_success
    (hdisc : (GetCgroupSubsystems includedMetrics).2 = none)
    (hmounts : (GetCgroupSubsystems includedMetrics).1.Mounts ≠ [])
    (hwatch : NewInotifyWatcher.2 = none) :
    Register GetCgroupSubsystems NewInotifyWatcher asFactory machineInfoFactory fsInfo includedMetrics
        rawPrefixWhiteList w =
      (none,
        RegisterContainerHandlerFactory
          (asFactory
            { machineInfoFactory := machineInfoFactory
              cgroupSubsystems := (GetCgroupSubsystems includedMetrics).1
              fsInfo := fsInfo
              watcher := NewInotifyWatcher.1
              includedMetrics := includedMetrics
              rawPrefixWhiteList := rawPrefixWhiteList })
          [ContainerWatchSource.Raw]
          (((w.call Call.GetCgroupSubsystems).call Call.NewInotifyWatcher).call
            (Call.Infof 1 (str "Registering Raw factory")))) := by
  rcases hG : GetCgroupSubsystems includedMetrics with ⟨cg, err⟩
  rcases NewInotifyWatcher with ⟨wt, werr⟩
  rw [hG] at hdisc hmounts
  cases hdisc
  cases hwatch
  simp only at hmounts
  simp [Register, hG, hmounts]

/-- The two `fmt.Errorf` texts of `Register` differ whatever the cause. -/
theorem errGetCgroupSubsystems_ne_errNoMounts (cause : GoError) :
    errGetCgroupSubsystems cause ≠ errNoMounts := by
  intro h
  have hmsg : str "failed to get cgroup subsystems: " ++ cause.Error =
      str "failed to find supported cgroup mounts for the raw factory" :=
    congrArg GoError.Error h
  have htake := congrArg (List.take 11) hmsg
  rw [List.take_append_of_le_length (by decide)] at htake
  exact absurd htake (by decide)

/-- C8: `Register` changes the registry exactly when it returns nil. If
discovery fails, or the mount set is empty, or watcher creation fails, it
returns an error and leaves the registry as it was; if all three succeed it
returns nil and the registry has grown by exactly one entry: the factory
holding the arguments of `Register`, tagged with the single source `Raw`. -/
theorem register_registry_changes_iff_nil
    (GetCgroupSubsystems : IncludedMetrics → CgroupSubsystems × Option GoError)
    (NewInotifyWatcher : InotifyWatcher × Option GoError)
    (asFactory : rawFactory MachineInfoFactory FsInfo InotifyWatcher IncludedMetrics → Factory)
    (machineInfoFactory : MachineInfoFactory) (fsInfo : FsInfo)
    (includedMetrics : IncludedMetrics) (rawPrefixWhiteList : List GoString)
    (w : World Factory) :
    ((Register GetCgroupSubsystems NewInotifyWatcher asFactory machineInfoFactory fsInfo includedMetrics
          rawPrefixWhiteList w).2.factories ≠ w.factories ↔
        (Register GetCgroupSubsystems NewInotifyWatcher asFactory machineInfoFactory fsInfo includedMetrics
          rawPrefixWhiteList w).1 = none) ∧
      (((GetCgroupSubsystems includedMetrics).2 ≠ none ∨
          (GetCgroupSubsystems includedMetrics).1.Mounts = [] ∨
          NewInotifyWatcher.2 ≠ none) →
        (Register GetCgroupSubsystems NewInotifyWatcher asFactory machineInfoFactory fsInfo includedMetrics
            rawPrefixWhiteList w).1 ≠ none ∧
          (Register GetCgroupSubsystems NewInotifyWatcher asFactory machineInfoFactory fsInfo
            includedMetrics rawPrefixWhiteList w).2.factories = w.factories) ∧
      (((GetCgroupSubsystems includedMetrics).2 = none ∧
          (GetCgroupSubsystems includedMetrics).1.Mounts ≠ [] ∧
          NewInotifyWatcher.2 = none) →
        (Register GetCgroupSubsystems NewInotifyWatcher asFactory machineInfoFactory fsInfo includedMetrics
            rawPrefixWhiteList w).1 = none ∧
          (Register GetCgroupSubsystems NewInotifyWatcher asFactory machineInfoFactory fsInfo
            includedMetrics rawPrefixWhiteList w).2.factories =
            w.factories ++
              [(asFactory
                  { machineInfoFactory := machineInfoFactory
                    cgroupSubsystems := (GetCgroupSubsystems includedMetrics).1
                    fsInfo := fsInfo
                    watcher := NewInotifyWatcher.1
                    includedMetrics := includedMetrics
                    rawPrefixWhiteList := rawPrefixWhiteList },
                [ContainerWatchSource.Raw])]) := by
  rcases hdisc : (GetCgroupSubsystems includedMetrics).2 with _ | cause
  · by_cases hmounts : (GetCgroupSubsystems includedMetrics).1.Mounts = []
    · rw [register_no_mounts _ _ _ _ _ _ _ _ hdisc hmounts]
      simp [World.call, hmounts]
    · rcases hwatch : NewInotifyWatcher.2 with _ | cause
      · rw [register_success _ _ _ _ _ _ _ _ hdisc hmounts hwatch]
        simp [World.call, RegisterContainerHandlerFactory, hmounts]
      · rw [register_watcher_error _ _ _ _ _ _ _ _ cause hdisc hmounts hwatch]
        simp [World.call]
  · rw [register_discovery_error _ _ _ _ _ _ _ _ cause hdisc]
    simp [World.call]

/-- Witness for C8: one mounted controller and a watcher that is created
register one factory into an empty registry. -/
theorem register_registry_changes_iff_nil_witness :
    (Register (fun _ : Unit => ((⟨[(str "cpu", str "/sys/fs/cgroup/cpu")]⟩ : CgroupSubsystems), none))
          ((), none) id () () () [str "/docker/"] ⟨[], []⟩).1 = none ∧
      (Register (fun _ : Unit => ((⟨[(str "cpu", str "/sys/fs/cgroup/cpu")]⟩ : CgroupSubsystems), none))
          ((), none) id () () () [str "/docker/"] ⟨[], []⟩).2.factories =
        [] ++ [(exampleFactory [str "/docker/"], [ContainerWatchSource.Raw])] :=
  (register_registry_changes_iff_nil
    (fun _ : Unit => ((⟨[(str "cpu", str "/sys/fs/cgroup/cpu")]⟩ : CgroupSubsystems), none))
    (((), none) : Unit × Option GoError) id () () () [str "/docker/"] ⟨[], []⟩).2.2
    ⟨rfl, by decide, rfl⟩

/-- C9: when discovery succeeds with an empty mount set, `Register` returns
the fixed error "failed to find supported cgroup mounts for the raw factory"
and the only call it has made is the discovery call (no watcher is created);
when discovery fails with any cause, it returns "failed to get cgroup
subsystems: " followed by the text of the cause, which is never the no-mounts
error. -/
theorem register_no_mounts_error_distinct
    (GetCgroupSubsystems : IncludedMetrics → CgroupSubsystems × Option GoError)
    (NewInotifyWatcher : InotifyWatcher × Option GoError)
    (asFactory : rawFactory MachineInfoFactory FsInfo InotifyWatcher IncludedMetrics → Factory)
    (machineInfoFactory : MachineInfoFactory) (fsInfo : FsInfo)
    (includedMetrics : IncludedMetrics) (rawPrefixWhiteList : List GoString)
    (w : World Factory) :
    (((GetCgroupSubsystems includedMetrics).2 = none ∧
          (GetCgroupSubsystems includedMetrics).1.Mounts = []) →
        (Register GetCgroupSubsystems NewInotifyWatcher asFactory machineInfoFactory fsInfo includedMetrics
            rawPrefixWhiteList w).1 =
          some ⟨str "failed to find supported cgroup mounts for the raw factory"⟩ ∧
        (Register GetCgroupSubsystems NewInotifyWatcher asFactory machineInfoFactory fsInfo includedMetrics
            rawPrefixWhiteList w).2.calls = w.calls ++ [Call.GetCgroupSubsystems]) ∧
      (∀ cause : GoError, (GetCgroupSubsystems includedMetrics).2 = some cause →
        (Register GetCgroupSubsystems NewInotifyWatcher asFactory machineInfoFactory fsInfo includedMetrics
            rawPrefixWhiteList w).1 =
          some ⟨str "failed to get cgroup subsystems: " ++ cause.Error⟩ ∧
        (Register GetCgroupSubsystems NewInotifyWatcher asFactory machineInfoFactory fsInfo includedMetrics
            rawPrefixWhiteList w).1 ≠
          some ⟨str "failed to find supported cgroup mounts for the raw factory"⟩) := by
  constructor
  · rintro ⟨hdisc, hmounts⟩
    rw [register_no_mounts _ _ _ _ _ _ _ _ hdisc hmounts]
    exact ⟨rfl, rfl⟩
  · intro cause hdisc
    rw [register_discovery_error _ _ _ _ _ _ _ _ cause hdisc]
    refine ⟨rfl, ?_⟩
    intro h
    exact errGetCgroupSubsystems_ne_errNoMounts cause (Option.some.inj h)

/-- Witness for C9 (scenario D of the specification): discovery returns an
empty mount set; the no-mounts error comes back, the registry is not touched
and `NewInotifyWatcher` is not called. -/
theorem register_no_mounts_error_distinct_witness :
    (Register (fun _ : Unit => ((⟨[]⟩ : CgroupSubsystems), none))
          (((), none) : Unit × Option GoError) id () () () [str "/docker/"] ⟨[], []⟩).1 =
        some ⟨str "failed to find supported cgroup mounts for the raw factory"⟩ ∧
      (Register (fun _ : Unit => ((⟨[]⟩ : CgroupSubsystems), none))
          (((), none) : Unit × Option GoError) id () () () [str "/docker/"] ⟨[], []⟩).2.calls =
        [] ++ [Call.GetCgroupSubsystems] :=
  (register_no_mounts_error_distinct
    (fun _ : Unit => ((⟨[]⟩ : CgroupSubsystems), none))
    (((), none) : Unit × Option GoError) id () () () [str "/docker/"] ⟨[], []⟩).1
    ⟨rfl, rfl⟩

end Bootstrap

end raw
